import Mathlib

/-!
Verification of the import-resolution and package-construction engine of the
`go/loader` package (src/go/loader/loader.go).

The Go code is shallowly embedded as pure Lean functions with explicit state
passing.  Go maps become association lists (which also fixes a deterministic
iteration order); Go pointers become allocation identifiers drawn from a
counter threaded through the state, so "pointer equality" is equality of
values carrying the same identifier.  The recursion
`importPackage -> importFromSource -> createPackage -> typeCheck -> doImport
-> importPackage` is made total with a fuel parameter: every function in the
recursive knot consumes one unit of fuel per hop and returns `none` when the
fuel runs out; on the real code the cycle-sentinel cache bounds the recursion
depth, so any sufficiently large fuel computes the real result.

External collaborators that live outside src/ (the `go/build` + parser
directory discovery behind `parsePackageFiles`, the `go/types` checker behind
`tc.Check`, and the `gcimporter` binary importer) are modelled from the spec
as a `World` record of oracles; definitions modelled this way carry a
`Modelled from the spec:` note in their doc comment.
-/

deriving instance DecidableEq for Except

/-- An import path or file-set identifier. -/
abbrev IPath := String

/-- A parsed source file (`*ast.File`), reduced to the two facts the loader
acts on: its declared package name and the import paths it mentions. -/
structure File where
  pkgName : String
  imports : List IPath
deriving DecidableEq, Repr

/-- A `*types.Package` handle.  `pid` is the allocation identifier standing
for the Go pointer; `path` is the result of the package's path accessor. -/
structure TPackage where
  pid : Nat
  path : IPath
deriving DecidableEq, Repr

/-- The `types.Unsafe` package handle, special-cased by the loader. -/
def unsafePkg : TPackage := { pid := 0, path := "unsafe" }

/-- A `*loader.PackageInfo` (defined in the repository outside src/; its
fields are taken from the spec's Unit: parsed files, type information,
importable flag, first recorded construction error).  `infoId` is the
allocation identifier standing for the Go pointer identity. -/
structure PackageInfo where
  Pkg : TPackage
  Files : List File
  Importable : Bool
  err : Option String
  infoId : Nat
deriving DecidableEq, Repr

/-- `importInfo` from loader.go: the cache record of one import, holding the
typechecking result and/or the reason the package could not be made. -/
structure ImportInfo where
  info : Option PackageInfo
  err : Option String
deriving DecidableEq, Repr

/-- One diagnostic forwarded to an error sink: `toStderr` is true when it
went to the default `os.Stderr` sink rather than a configured callback. -/
structure Diag where
  toStderr : Bool
  msg : String
deriving DecidableEq, Repr

/-- Association-list lookup, modelling Go map indexing `m[k]`. -/
def mlookup {κ α : Type} [DecidableEq κ] : List (κ × α) → κ → Option α
  | [], _ => none
  | (k, v) :: rest, key => if k = key then some v else mlookup rest key

/-- Association-list update-or-append, modelling Go map assignment
`m[k] = v` (deterministic order: existing key updated in place, new key
appended). -/
def mupsert {κ α : Type} [DecidableEq κ] : List (κ × α) → κ → α → List (κ × α)
  | [], key, v => [(key, v)]
  | (k, w) :: rest, key, v =>
      if k = key then (key, v) :: rest else (k, w) :: mupsert rest key v

theorem mlookup_mupsert_self {κ α : Type} [DecidableEq κ]
    (m : List (κ × α)) (k : κ) (v : α) : mlookup (mupsert m k v) k = some v := by
  induction m with
  | nil => simp [mupsert, mlookup]
  | cons hd tl ih =>
      by_cases h : hd.1 = k
      · simp [mupsert, h, mlookup]
      · simp [mupsert, h, mlookup, ih]

/-- `loader.Config`, with each Go field shallowly embedded: `Fset` and
`Build` as optional identifiers of the external objects, `Packages` as the
optional canonical path-to-package map (`TypeChecker.Packages`), `tcError`
recording whether a `TypeChecker.Error` callback was supplied, and the
remaining fields directly. -/
structure Config where
  Fset : Option Nat := none
  Packages : Option (List (IPath × TPackage)) := none
  tcError : Bool := false
  TypeCheckFuncBodies : Option (IPath → Bool) := none
  SourceImports : Bool := false
  Build : Option Nat := none
  CreatePkgs : List (List File) := []
  ImportPkgs : List (IPath × Bool) := []

/-- The external collaborators, modelled from the spec.
`listFiles p mode` is `parsePackageFiles(build, fset, p, mode)`: directory
discovery plus parsing, with mode "g" (production files), "gt" (production
plus in-package tests) or "x" (external test files); failure is an error.
`typeErrors p ignoreBodies` is the list of diagnostics the type checker
reports for the package body itself (excluding import failures).
`binImport p` says whether the binary (precompiled export data) importer can
supply package `p`. -/
structure World where
  listFiles : IPath → String → Except String (List File)
  typeErrors : IPath → Bool → List String
  binImport : IPath → Except String Unit

/-- The mutable state of one load: the shared canonical package map
(`conf.TypeChecker.Packages`), the importer's cache `imp.imported`, the
accumulating `Program` fields (`Created`, `Imported`, `AllPackages`), the
diagnostics forwarded to sinks, and the allocation counter. -/
structure LState where
  packages : List (IPath × TPackage)
  imported : List (IPath × ImportInfo)
  created : List PackageInfo
  importedProg : List (IPath × Option PackageInfo)
  allPackages : List (TPackage × PackageInfo)
  diags : List Diag
  nextId : Nat
deriving DecidableEq, Repr

/-- The cycle-sentinel cache entry inserted by `importPackage` in preorder:
`&importInfo{err: fmt.Errorf("import cycle in package %s", path)}`. -/
def cycleErr (path : IPath) : String := "import cycle in package " ++ path

/-- The sentinel `importInfo` value. -/
def sentinelII (path : IPath) : ImportInfo := { info := none, err := some (cycleErr path) }

/-- The state right after the sentinel entry for `path` is inserted into
the cache, before any construction work for `path` begins. -/
def sentSt (st : LState) (path : IPath) : LState :=
  { st with imported := mupsert st.imported path (sentinelII path) }

/-- The effective `IgnoreFuncBodies` for one package: false when
`TypeCheckFuncBodies` is nil, otherwise the negation of the predicate at
`path` (loader.go lines 626-630). -/
def ignoreBodiesFor (conf : Config) (path : IPath) : Bool :=
  match conf.TypeCheckFuncBodies with
  | none => false
  | some f => !(f path)

/-- `importFromBinary`: the effective import function (the default
`gcimporter.Import` is Modelled from the spec: reuse the canonical package
for `path` if the identity map already has one, otherwise consult the
binary-import collaborator and allocate a fresh handle registered in the
identity map).  On success the loader wraps the handle in a fresh
`PackageInfo` with no retained source and registers it in
`prog.AllPackages`. -/
def importFromBinary (w : World) (st : LState) (path : IPath) :
    (Option PackageInfo × Option String) × LState :=
  match mlookup st.packages path with
  | some pkg =>
      let info : PackageInfo :=
        { Pkg := pkg, Files := [], Importable := false, err := none, infoId := st.nextId }
      ((some info, none),
        { st with nextId := st.nextId + 1, allPackages := mupsert st.allPackages pkg info })
  | none =>
      match w.binImport path with
      | .error e => ((none, some e), st)
      | .ok _ =>
          let pkg : TPackage := { pid := st.nextId, path := path }
          let info : PackageInfo :=
            { Pkg := pkg, Files := [], Importable := false, err := none, infoId := st.nextId + 1 }
          ((some info, none),
            { st with nextId := st.nextId + 2,
                      packages := mupsert st.packages path pkg,
                      allPackages := mupsert st.allPackages pkg info })

/-- The tail of `importPackage`'s uncached branch (loader.go lines 556-560):
store the construction result over the sentinel cache entry and, when a
package was produced, mark it importable (the same object also sits in
`prog.AllPackages`, so the mark is visible there too). -/
def finishImport (path : IPath) (r : Option PackageInfo × Option String) (st : LState) :
    (Option PackageInfo × Option String) × LState :=
  match r.1 with
  | some info =>
      let info' := { info with Importable := true }
      ((some info', r.2),
        { st with allPackages := mupsert st.allPackages info'.Pkg info',
                  imported := mupsert st.imported path { info := some info', err := r.2 } })
  | none =>
      ((none, r.2), { st with imported := mupsert st.imported path { info := none, err := r.2 } })

/-- The type of the import-resolution callback: `importPackage` partially
applied, as installed into the type checker by `createPackage`
(`tc.Import = imp.doImport`, which delegates to `imp.importPackage`). -/
abbrev Resolver := LState → IPath → Option ((Option PackageInfo × Option String) × LState)

/-- `(*importer).doImport` (loader.go lines 513-528): the import callback
handed to the type checker.  "unsafe" is special-cased to `types.Unsafe`
with no cache entry, no `PackageInfo` and no `AllPackages` entry; otherwise
the path is resolved through the resolver (`importPackage`), and on success
the importing package's import map is updated. -/
def doImport (resolve : Resolver) (st : LState)
    (imports : List (IPath × TPackage)) (path : IPath) :
    Option (Except String TPackage × List (IPath × TPackage) × LState) :=
  if path = "unsafe" then some (.ok unsafePkg, imports, st)
  else
    match resolve st path with
    | none => none
    | some ((info?, err?), st') =>
        match err? with
        | some e => some (.error e, imports, st')
        | none =>
            match info? with
            | some info => some (.ok info.Pkg, mupsert imports path info.Pkg, st')
            | none => some (.error ("no package for " ++ path), imports, st')

/-- Resolve a list of import specs in order through `doImport`, collecting
the error message of each failed import as a diagnostic and threading the
importing package's import map. -/
def doImportList (resolve : Resolver) :
    LState → List (IPath × TPackage) → List IPath →
    Option ((List String × List (IPath × TPackage)) × LState)
  | st, imports, [] => some (([], imports), st)
  | st, imports, q :: rest =>
      match doImport resolve st imports q with
      | none => none
      | some (r, imports', st') =>
          match doImportList resolve st' imports' rest with
          | none => none
          | some ((errs, imports''), st'') =>
              match r with
              | .error e => some ((e :: errs, imports''), st'')
              | .ok _ => some ((errs, imports''), st'')

/-- Modelled from the spec: the external Type-Check Service (`tc.Check` of
go/types, which lives outside src/).  It allocates a canonical package
handle for `path`, registers it in the shared identity map, resolves
every import spec of the files through the configured import callback
(`doImport`), turns each failed import into a diagnostic, appends the
package's own type diagnostics, and returns the handle, the first diagnostic
as the error value, and the full diagnostic list. -/
def typeCheck (w : World) (resolve : Resolver) (st : LState)
    (path : IPath) (files : List File) (ignoreBodies : Bool) :
    Option ((TPackage × Option String × List String) × LState) :=
  let pkg : TPackage := { pid := st.nextId, path := path }
  let st1 := { st with nextId := st.nextId + 1, packages := mupsert st.packages path pkg }
  match doImportList resolve st1 [] (files.flatMap (fun f => f.imports)) with
  | none => none
  | some ((importErrs, _), st2) =>
      let ds := importErrs ++ w.typeErrors path ignoreBodies
      some ((pkg, ds.head?, ds), st2)

/-- `(*importer).createPackage` (loader.go lines 612-638): build a fresh
info record, derive the per-package type-checker configuration (effective
`IgnoreFuncBodies`; error sink defaulting to stderr when none is
configured; import callback `doImport`), run the type checker once over the
files, record its first diagnostic in `info.err`, forward every diagnostic
to the sink, and register the info in `prog.AllPackages`.  It never returns
an error (`none` here only signals resolver fuel exhaustion). -/
def createPackage (w : World) (conf : Config) (resolve : Resolver) (st : LState)
    (path : IPath) (files : List File) : Option (PackageInfo × LState) :=
  match typeCheck w resolve st path files (ignoreBodiesFor conf path) with
  | none => none
  | some ((pkg, err, ds), st2) =>
      let info : PackageInfo :=
        { Pkg := pkg, Files := files, Importable := false, err := err, infoId := st2.nextId }
      some (info,
        { st2 with nextId := st2.nextId + 1,
                   allPackages := mupsert st2.allPackages pkg info,
                   diags := st2.diags ++
                     ds.map (fun m => { toStderr := !conf.tcError, msg := m }) })

/-- `(*importer).importFromSource` (loader.go lines 587-594): discover and
parse the files of `path` (failure is returned as the import's error), then
type-check them via `createPackage`, which never fails. -/
def importFromSource (w : World) (conf : Config) (resolve : Resolver) (st : LState)
    (path : IPath) (which : String) :
    Option ((Option PackageInfo × Option String) × LState) :=
  match w.listFiles path which with
  | .error e => some ((none, some e), st)
  | .ok files =>
      match createPackage w conf resolve st path files with
      | none => none
      | some (info, st') => some ((some info, none), st')

/-- The strategy decision of `importPackage` (loader.go lines 547-555): load
from source when `path` is a key of `conf.ImportPkgs` (with in-package test
augmentation when its flag is true) or when `conf.SourceImports` is set;
otherwise load through the binary importer. -/
def importDispatch (w : World) (conf : Config) (resolve : Resolver) (st : LState)
    (path : IPath) : Option ((Option PackageInfo × Option String) × LState) :=
  match mlookup conf.ImportPkgs path with
  | some augment => importFromSource w conf resolve st path (if augment then "gt" else "g")
  | none =>
      if conf.SourceImports then importFromSource w conf resolve st path "g"
      else some (importFromBinary w st path)

/-- The body of `importPackage`'s uncached branch, run from the state that
already holds the sentinel: choose a strategy, construct, then finish. -/
def importAfterSentinel (w : World) (conf : Config) (resolve : Resolver) (st : LState)
    (path : IPath) : Option ((Option PackageInfo × Option String) × LState) :=
  (importDispatch w conf resolve st path).map (fun r => finishImport path r.1 r.2)

/-- `(*importer).importPackage` (loader.go lines 535-563): return the cached
result if present; otherwise insert the cycle sentinel in preorder and run
the construction from that state, with the nested resolver given one unit
of fuel less (the fuel bounds the depth of uncached nested resolutions;
`none` means it ran out). -/
def importPackage (w : World) (conf : Config) : Nat → LState → IPath →
    Option ((Option PackageInfo × Option String) × LState)
  | 0, st, path =>
      match mlookup st.imported path with
      | some ii => some ((ii.info, ii.err), st)
      | none => none
  | n + 1, st, path =>
      match mlookup st.imported path with
      | some ii => some ((ii.info, ii.err), st)
      | none =>
          importAfterSentinel w conf (importPackage w conf n) (sentSt st path) path

/-- The defining equation of `importPackage`, proved by fuel case split
(used in place of definitional unfolding). -/
theorem importPackage_eq (w : World) (conf : Config) (fuel : Nat) (st : LState) (path : IPath) :
    importPackage w conf fuel st path =
      match mlookup st.imported path with
      | some ii => some ((ii.info, ii.err), st)
      | none =>
          match fuel with
          | 0 => none
          | n + 1 =>
              importAfterSentinel w conf (importPackage w conf n) (sentSt st path) path := by
  cases fuel <;> rfl


/-- `loader.Program`: the final aggregate of a successful load.  `FsetId`
identifies the file set; the other fields embed `Created`, `Imported`,
`ImportMap` and `AllPackages`. -/
structure Program where
  FsetId : Nat
  Created : List PackageInfo
  Imported : List (IPath × Option PackageInfo)
  ImportMap : List (IPath × TPackage)
  AllPackages : List (TPackage × PackageInfo)
deriving DecidableEq, Repr

/-- `(*Config).fset` (loader.go lines 204-209): return the configured file
set, lazily creating one when the field is nil. -/
def confFset (conf : Config) : Nat × Config :=
  match conf.Fset with
  | some f => (f, conf)
  | none => (1, { conf with Fset := some 1 })

/-- The initial contents of the canonical package map: the configured
`TypeChecker.Packages`, or the fresh empty map Load creates when it is nil
(loader.go lines 428-430). -/
def initPackages (conf : Config) : List (IPath × TPackage) :=
  conf.Packages.getD []

/-- The configuration as mutated by Load's initialization: the canonical
package map and the file set are created when nil; nothing else is
written. -/
def initConf (conf : Config) : Config :=
  (confFset { conf with Packages := some (initPackages conf) }).2

/-- The importer state at the start of one load: the (possibly pre-existing)
canonical package map, and everything else empty. -/
def initSt (conf : Config) : LState :=
  { packages := initPackages conf, imported := [], created := [],
    importedProg := [], allPackages := [], diags := [], nextId := 1 }

/-- The first loop of `Load` (loader.go lines 445-451): import each
configured initial package; a construction error (such as a discovery or
parse failure) aborts the load with that error, otherwise the resulting
info is recorded in `prog.Imported`. -/
def loadImports (fuel : Nat) (w : World) (conf : Config) :
    LState → List (IPath × Bool) → Option ((Except String Unit) × LState)
  | st, [] => some (.ok (), st)
  | st, (p, _) :: rest =>
      match importPackage w conf fuel st p with
      | none => none
      | some ((info?, err?), st') =>
          match err? with
          | some e => some (.error e, st')
          | none =>
              loadImports fuel w conf
                { st' with importedProg := st'.importedProg ++ [(p, info?)] } rest

/-- Modelled from the spec: `packageName` (defined in the repository outside
src/): the name of an ad-hoc package is taken from its files' package
declarations, which must all be equal; a group with no files or with
conflicting declarations is a configuration error. -/
def packageName (files : List File) : Except String String :=
  match files with
  | [] => .error "package has no Go source files"
  | f :: rest =>
      if rest.all (fun g => g.pkgName = f.pkgName) then .ok f.pkgName
      else .error "found packages with conflicting names"

/-- The second loop of `Load` (loader.go lines 453-461): type-check each
ad-hoc file group into a created package; a bad package declaration aborts
the load. -/
def loadCreates (fuel : Nat) (w : World) (conf : Config) :
    LState → List (List File) → Option ((Except String Unit) × LState)
  | st, [] => some (.ok (), st)
  | st, files :: rest =>
      match packageName files with
      | .error e => some (.error e, st)
      | .ok name =>
          match createPackage w conf (importPackage w conf fuel) st name files with
          | none => none
          | some (info, st') =>
              loadCreates fuel w conf { st' with created := st'.created ++ [info] } rest

/-- The paths enumerated by `Load`'s final error scan (loader.go lines
467-473): the path of every package in `prog.AllPackages` whose info has a
recorded construction error. -/
def errPaths (st : LState) : List String :=
  (st.allPackages.filter (fun e => e.2.err.isSome)).map (fun e => e.2.Pkg.path)

/-- The placeholder loop of `Load` (loader.go lines 479-485): every
canonical package handle with no `AllPackages` entry gets a minimal
importable info with no retained source. -/
def addPlaceholders : List (IPath × TPackage) → List (TPackage × PackageInfo) → Nat →
    List (TPackage × PackageInfo)
  | [], ap, _ => ap
  | (_, pkg) :: rest, ap, nid =>
      match mlookup ap pkg with
      | some _ => addPlaceholders rest ap nid
      | none =>
          addPlaceholders rest
            (ap ++ [(pkg, { Pkg := pkg, Files := [], Importable := true, err := none, infoId := nid })])
            (nid + 1)

/-- The successfully assembled `Program` (loader.go lines 432-437 and
479-487): the accumulated `Created`, `Imported` and `AllPackages` data plus
the synthesized placeholders. -/
def mkProgram (fsetId : Nat) (st : LState) : Program :=
  { FsetId := fsetId, Created := st.created, Imported := st.importedProg,
    ImportMap := st.packages,
    AllPackages := addPlaceholders st.packages st.allPackages st.nextId }

/-- The tail of `Load` after both construction loops (loader.go lines
463-487): fail when no packages were specified, fail enumerating the paths
of the packages with recorded errors when any exist, otherwise synthesize
placeholders and return the assembled `Program`. -/
def finishLoad (fsetId : Nat) (st : LState) : Except String Program :=
  if st.importedProg.length + st.created.length = 0 then
    .error "no *.go source files nor packages were specified"
  else if errPaths st = [] then
    .ok (mkProgram fsetId st)
  else
    .error ("couldn't load packages due to type errors: " ++
      String.intercalate ", " (errPaths st))

/-- `(*Config).Load` up to the end of its two construction loops: the
initialization (lines 425-443) followed by the import loop and the create
loop, returning the state reached together with the first structural error,
if any. -/
def loadRun (fuel : Nat) (w : World) (conf : Config) :
    Option ((Except String Unit) × LState) :=
  match loadImports fuel w (initConf conf) (initSt conf) conf.ImportPkgs with
  | none => none
  | some (.error e, st) => some (.error e, st)
  | some (.ok _, st) => loadCreates fuel w (initConf conf) st conf.CreatePkgs

/-- `(*Config).Load` (loader.go lines 425-488), paired with the
configuration as it stands when Load returns (Load writes only the lazily
initialized `Fset` and `TypeChecker.Packages` fields, and the contents of
the shared canonical package map). -/
def loadFull (fuel : Nat) (w : World) (conf : Config) :
    Option ((Except String Program) × Config) :=
  match loadRun fuel w conf with
  | none => none
  | some (r, st) =>
      let conf' := { initConf conf with Packages := some st.packages }
      match r with
      | .error e => some (.error e, conf')
      | .ok _ => some (finishLoad (confFset conf).1 st, conf')

/-- The result of `(*Config).Load` alone: `.ok prog` models the non-nil
Program with nil error, `.error e` models the nil Program with non-nil
error; `none` means the fuel ran out. -/
def Load (fuel : Nat) (w : World) (conf : Config) : Option (Except String Program) :=
  (loadFull fuel w conf).map Prod.fst

/-- `(*Config).Import` (loader.go lines 359-367): "unsafe" is ignored;
otherwise the path is added to `ImportPkgs` as an unaugmented source
package. -/
def Import (conf : Config) (path : IPath) : Config :=
  if path = "unsafe" then conf
  else { conf with ImportPkgs := mupsert conf.ImportPkgs path false }

/-- `(*Config).ImportWithTests` (loader.go lines 327-354): "unsafe" is
ignored; otherwise the path is first added unaugmented; if some path already
claimed the single augmentation slot the call stops there without error;
otherwise the external test files are located and, when present, added as an
ad-hoc created package, and the path's augment flag is set.  The result is
the returned error (if any) paired with the updated configuration. -/
def ImportWithTests (w : World) (conf : Config) (path : IPath) :
    Option String × Config :=
  if path = "unsafe" then (none, conf)
  else
    let c1 := Import conf path
    if c1.ImportPkgs.any (fun e => e.2) then (none, c1)
    else
      let c2 := (confFset c1).2
      match w.listFiles path "x" with
      | .error e => (some e, c2)
      | .ok xtestFiles =>
          let c3 :=
            if xtestFiles.isEmpty then c2
            else { c2 with CreatePkgs := c2.CreatePkgs ++ [xtestFiles] }
          (none, { c3 with ImportPkgs := mupsert c3.ImportPkgs path true })

/-! Concrete worlds and configurations used as witnesses and
counterexamples. -/

/-- A world with no source directories, no type errors and no export data. -/
def wTriv : World :=
  { listFiles := fun _ _ => .error "no files",
    typeErrors := fun _ _ => [],
    binImport := fun _ => .error "no export data" }

/-- A world with a single well-formed package "lib" with no imports. -/
def wOne : World :=
  { wTriv with listFiles := fun p m =>
      if p = "lib" ∧ m = "g" then .ok [{ pkgName := "lib", imports := [] }]
      else .error "no files" }

/-- A world where package "A" imports itself. -/
def wSelf : World :=
  { wTriv with listFiles := fun p m =>
      if p = "A" ∧ m = "g" then .ok [{ pkgName := "A", imports := ["A"] }]
      else .error "no files" }

/-- A world with the mutual import cycle A imports B, B imports A. -/
def wAB : World :=
  { wTriv with listFiles := fun p m =>
      if p = "A" ∧ m = "g" then .ok [{ pkgName := "A", imports := ["B"] }]
      else if p = "B" ∧ m = "g" then .ok [{ pkgName := "B", imports := ["A"] }]
      else .error "no files" }

/-- A world where "A" parses fine but its dependency "dep" fails to parse. -/
def wDep : World :=
  { wTriv with listFiles := fun p m =>
      if p = "A" ∧ m = "g" then .ok [{ pkgName := "A", imports := ["dep"] }]
      else .error "parse failed: dep" }

/-- A world whose package "a" has one external test file. -/
def wX : World :=
  { wTriv with listFiles := fun p m =>
      if p = "a" ∧ m = "x" then .ok [{ pkgName := "a_test", imports := [] }]
      else .error "no files" }

/-- A world whose package "m" has one intrinsic type error. -/
def wErr : World :=
  { wTriv with typeErrors := fun p _ => if p = "m" then ["boom"] else [] }

/-- A world where every directory discovery / parse fails. -/
def wPF : World :=
  { wTriv with listFiles := fun _ _ => .error "parse error: A" }

/-- The zero configuration (nothing to load). -/
def conf0 : Config := {}

/-- A configuration importing only "lib". -/
def confOne : Config := { ImportPkgs := [("lib", false)] }

/-- A configuration importing only the self-importing "A". -/
def confSelf : Config := { ImportPkgs := [("A", false)] }

/-- A configuration importing the mutually-cyclic "A" and "B". -/
def confAB : Config := { ImportPkgs := [("A", false), ("B", false)] }

/-- A configuration importing "A" with whole-program source loading, so the
dependency "dep" is also loaded from source. -/
def confDep : Config := { ImportPkgs := [("A", false)], SourceImports := true }

/-- A configuration importing only "A". -/
def confPF : Config := { ImportPkgs := [("A", false)] }

/-! Helper lemmas. -/

theorem initConf_ImportPkgs (conf : Config) : (initConf conf).ImportPkgs = conf.ImportPkgs := by
  unfold initConf confFset
  cases conf.Fset <;> rfl

theorem initConf_CreatePkgs (conf : Config) : (initConf conf).CreatePkgs = conf.CreatePkgs := by
  unfold initConf confFset
  cases conf.Fset <;> rfl

/-- After a successful uncached construction, the cache entry at `path`
holds exactly the pair returned: the sentinel has been replaced by the real
result. -/
theorem importAfterSentinel_lookup {w : World} {conf : Config} {resolve : Resolver}
    {st : LState} {path : IPath} {r : Option PackageInfo × Option String} {st' : LState}
    (h : importAfterSentinel w conf resolve st path = some (r, st')) :
    mlookup st'.imported path = some { info := r.1, err := r.2 } := by
  rw [importAfterSentinel] at h
  cases hd : importDispatch w conf resolve st path with
  | none => rw [hd] at h; simp at h
  | some x =>
      rw [hd] at h
      replace h : finishImport path x.1 x.2 = (r, st') := by simpa using h
      cases hx : x.1.1 with
      | some info =>
          simp only [finishImport, hx] at h
          rw [Prod.ext_iff] at h
          obtain ⟨h1, h2⟩ := h
          subst h2
          subst h1
          simp [mlookup_mupsert_self]
      | none =>
          simp only [finishImport, hx] at h
          rw [Prod.ext_iff] at h
          obtain ⟨h1, h2⟩ := h
          subst h2
          subst h1
          simp [mlookup_mupsert_self]

/-- C2: within one load, a second (and any later) call to `importPackage`
with the same path returns exactly the cached result of the first call — the
identical `PackageInfo` (same allocation identifier) and the same error —
and leaves the state untouched, i.e. performs no reconstruction. -/
theorem c2_import_idempotent {w : World} {conf : Config} {fuel : Nat} {st : LState}
    {path : IPath} {r : Option PackageInfo × Option String} {st' : LState}
    (h : importPackage w conf fuel st path = some (r, st')) (fuel' : Nat) :
    importPackage w conf fuel' st' path = some (r, st') := by
  have hl : mlookup st'.imported path = some { info := r.1, err := r.2 } := by
    rw [importPackage_eq] at h
    split at h
    · rename_i ii hc
      simp only [Option.some.injEq, Prod.mk.injEq] at h
      obtain ⟨h1, h2⟩ := h
      subst h2
      rw [hc, ← h1]
    · rename_i hc
      split at h
      · simp at h
      · rename_i n
        exact importAfterSentinel_lookup h
  rw [importPackage_eq, hl]

/-- The result of one concrete import of the well-formed package "lib". -/
def c2res : (Option PackageInfo × Option String) × LState :=
  (importPackage wOne confOne 6 (initSt confOne) "lib").getD ((none, none), initSt confOne)

/-- Witness for C2: re-importing "lib" after a first successful import
returns the identical cached pair and state. -/
theorem c2_witness : importPackage wOne confOne 9 c2res.2 "lib" = some (c2res.1, c2res.2) :=
  c2_import_idempotent
    (show importPackage wOne confOne 6 (initSt confOne) "lib" = some (c2res.1, c2res.2) by decide) 9

/-- C3 (amended): for an uncached path, `importPackage` proceeds from the
state holding the sentinel entry — inserted before any construction work —
whose error text is "import cycle in package `path`" (not "cycle detected
at `path`"); any reentrant call while that sentinel is in place returns the
cycle error without touching the state, and when the construction completes
the cache holds the real result in place of the sentinel. -/
theorem c3_cycle_sentinel {w : World} {conf : Config} {fuel : Nat} {st : LState} {path : IPath}
    (h : mlookup st.imported path = none) :
    importPackage w conf (fuel + 1) st path
      = importAfterSentinel w conf (importPackage w conf fuel) (sentSt st path) path
    ∧ (∀ g : Nat, ∀ st2 : LState, mlookup st2.imported path = some (sentinelII path) →
        importPackage w conf g st2 path = some ((none, some (cycleErr path)), st2))
    ∧ (∀ r st', importAfterSentinel w conf (importPackage w conf fuel) (sentSt st path) path
          = some (r, st') →
        mlookup st'.imported path = some { info := r.1, err := r.2 }) := by
  refine ⟨?_, ?_, ?_⟩
  · rw [importPackage_eq, h]
  · intro g st2 h2
    rw [importPackage_eq, h2]
    rfl
  · intro r st' hs
    exact importAfterSentinel_lookup hs

/-- The construction error recorded for the self-importing package "A". -/
def selfImportRecorded : Option String :=
  match importPackage wSelf confSelf 10 (initSt confSelf) "A" with
  | some ((some info, _), _) => info.err
  | _ => none

/-- C3 counterexample: the sentinel's error text for path "A" is
"import cycle in package A" — and that is the text a reentrant resolution
observes and records — not "cycle detected at `A`" as the claim states. -/
theorem c3_counterexample :
    (sentinelII "A").err = some "import cycle in package A"
    ∧ selfImportRecorded = some "import cycle in package A"
    ∧ ("import cycle in package A" : String) ≠ "cycle detected at `A`" :=
  ⟨rfl, by decide, by decide⟩

/-- The result of the uncached construction of the self-importing "A",
started from the sentinel state. -/
def c3run : (Option PackageInfo × Option String) × LState :=
  (importAfterSentinel wSelf confSelf (importPackage wSelf confSelf 9)
      (sentSt (initSt confSelf) "A") "A").getD
    ((none, none), initSt confSelf)

/-- Witness for C3 (amended), at the self-importing package "A". -/
theorem c3_witness :
    importPackage wSelf confSelf 10 (initSt confSelf) "A"
      = importAfterSentinel wSelf confSelf (importPackage wSelf confSelf 9)
          (sentSt (initSt confSelf) "A") "A"
    ∧ importPackage wSelf confSelf 3 (sentSt (initSt confSelf) "A") "A"
      = some ((none, some (cycleErr "A")), sentSt (initSt confSelf) "A")
    ∧ mlookup c3run.2.imported "A" = some { info := c3run.1.1, err := c3run.1.2 } := by
  have h := @c3_cycle_sentinel wSelf confSelf 9 (initSt confSelf) "A" (by decide)
  exact ⟨h.1, h.2.1 3 (sentSt (initSt confSelf) "A") (by decide),
    h.2.2 c3run.1 c3run.2 (by decide)⟩

/-- C5: for an uncached path, `importPackage` runs the strategy dispatch
from the sentinel state; the dispatch loads from source — with in-package
test augmentation exactly when the path's `ImportPkgs` flag is true — if
and only if the path is a key of `conf.ImportPkgs` or `conf.SourceImports`
is set, and otherwise loads through the binary importer. -/
theorem c5_source_vs_binary {w : World} {conf : Config} {fuel : Nat} {st : LState} {path : IPath}
    (h : mlookup st.imported path = none) :
    importPackage w conf (fuel + 1) st path
      = (importDispatch w conf (importPackage w conf fuel) (sentSt st path) path).map
          (fun r => finishImport path r.1 r.2)
    ∧ (∀ resolve : Resolver, ∀ st2 : LState,
        (mlookup conf.ImportPkgs path).isSome = true ∨ conf.SourceImports = true →
        importDispatch w conf resolve st2 path
          = importFromSource w conf resolve st2 path
              (if mlookup conf.ImportPkgs path = some true then "gt" else "g"))
    ∧ (∀ resolve : Resolver, ∀ st2 : LState,
        mlookup conf.ImportPkgs path = none → conf.SourceImports = false →
        importDispatch w conf resolve st2 path = some (importFromBinary w st2 path)) := by
  refine ⟨?_, ?_, ?_⟩
  · rw [importPackage_eq, h]
    rfl
  · intro resolve st2 hc
    unfold importDispatch
    cases hm : mlookup conf.ImportPkgs path with
    | some augment => cases augment <;> simp
    | none =>
        rcases hc with hc | hc
        · rw [hm] at hc; simp at hc
        · simp [hc]
  · intro resolve st2 h1 h2
    unfold importDispatch
    rw [h1, h2]
    simp

/-- Witness for C5: "lib" is a configured initial import of `confOne`, so it
is dispatched to source loading (unaugmented); "dep" is not configured and
`SourceImports` is off, so it is dispatched to the binary importer. -/
theorem c5_witness :
    importPackage wOne confOne 7 (initSt confOne) "lib"
      = (importDispatch wOne confOne (importPackage wOne confOne 6)
            (sentSt (initSt confOne) "lib") "lib").map
          (fun r => finishImport "lib" r.1 r.2)
    ∧ importDispatch wOne confOne (importPackage wOne confOne 6)
        (sentSt (initSt confOne) "lib") "lib"
      = importFromSource wOne confOne (importPackage wOne confOne 6)
          (sentSt (initSt confOne) "lib") "lib" "g"
    ∧ importDispatch wOne confOne (importPackage wOne confOne 6)
        (sentSt (initSt confOne) "dep") "dep"
      = some (importFromBinary wOne (sentSt (initSt confOne) "dep") "dep") := by
  have h1 := @c5_source_vs_binary wOne confOne 6 (initSt confOne) "lib" (by decide)
  have h2 := @c5_source_vs_binary wOne confOne 6 (initSt confOne) "dep" (by decide)
  refine ⟨h1.1, ?_, h2.2.2 (importPackage wOne confOne 6)
      (sentSt (initSt confOne) "dep") (by decide) (by decide)⟩
  exact h1.2.1 (importPackage wOne confOne 6) (sentSt (initSt confOne) "lib") (Or.inl (by decide))

/-- The construction error recorded on package "B" after loading the cyclic
configuration (A imports B imports A). -/
def c4ErrB : Option String :=
  match loadRun 10 wAB confAB with
  | some (_, st) =>
      match st.allPackages.find? (fun e => e.2.Pkg.path == "B") with
      | some en => en.2.err
      | none => none
  | none => none

/-- C4: loading the mutual import cycle A imports B imports A terminates
(the bounded-depth run completes rather than exhausting its recursion
budget), both construction loops finish without an early abort, package "B"
ends with a recorded diagnostic mentioning the import cycle, and the load
fails only at the final aggregate error scan, enumerating "B". -/
theorem c4_cycle_termination :
    Load 10 wAB confAB = some (.error "couldn't load packages due to type errors: B")
    ∧ (loadRun 10 wAB confAB).map Prod.fst = some (.ok ())
    ∧ c4ErrB = some "import cycle in package A" :=
  ⟨by decide, by decide, by decide⟩

/-- C10: the import path "unsafe" is special-cased everywhere: `Import`
returns the configuration unchanged, `ImportWithTests` returns nil error
with the configuration unchanged, and `doImport` returns the type checker's
Unsafe package with nil error, without touching the cache, the program
state, or the importing package's import map. -/
theorem c10_unsafe_special (conf : Config) (w : World) (resolve : Resolver)
    (st : LState) (imports : List (IPath × TPackage)) :
    Import conf "unsafe" = conf
    ∧ ImportWithTests w conf "unsafe" = (none, conf)
    ∧ doImport resolve st imports "unsafe" = some (.ok unsafePkg, imports, st) :=
  ⟨rfl, rfl, rfl⟩

/-- C1 (amended): when both construction loops complete without a
structural error and at least one initial package was produced, the load
succeeds with a non-nil Program exactly when no package in the aggregate
map has a recorded construction error; otherwise it returns a nil Program
with an error enumerating exactly the paths of the packages with recorded
errors (`errPaths`). -/
theorem c1_error_scan {fuel : Nat} {w : World} {conf : Config} {st : LState}
    (h : loadRun fuel w conf = some (.ok (), st))
    (hn : st.importedProg.length + st.created.length ≠ 0) :
    (errPaths st = [] →
      Load fuel w conf = some (.ok (mkProgram (confFset conf).1 st)))
    ∧ (errPaths st ≠ [] → Load fuel w conf
        = some (.error ("couldn't load packages due to type errors: "
            ++ String.intercalate ", " (errPaths st)))) := by
  have hL : Load fuel w conf = some (finishLoad (confFset conf).1 st) := by
    unfold Load loadFull
    rw [h]
    rfl
  constructor
  · intro he
    rw [hL]
    unfold finishLoad
    rw [if_neg hn, if_pos he]
  · intro he
    rw [hL]
    unfold finishLoad
    rw [if_neg hn, if_neg he]

/-- The state after the construction loops of a fully successful one-package
load. -/
def c1stOne : LState := ((loadRun 10 wOne confOne).getD (.ok (), initSt confOne)).2

/-- The state after the construction loops of the cyclic load, where "B"
carries a recorded error. -/
def c1stAB : LState := ((loadRun 10 wAB confAB).getD (.ok (), initSt confAB)).2

/-- Witness for C1 (amended): the clean one-package load returns the
assembled program; the cyclic load returns the error enumerating exactly
the offending path "B". -/
theorem c1_witness :
    Load 10 wOne confOne = some (.ok (mkProgram (confFset confOne).1 c1stOne))
    ∧ Load 10 wAB confAB = some (.error ("couldn't load packages due to type errors: "
        ++ String.intercalate ", " (errPaths c1stAB))) := by
  have h1 := @c1_error_scan 10 wOne confOne c1stOne (by decide) (by decide)
  have h2 := @c1_error_scan 10 wAB confAB c1stAB (by decide) (by decide)
  exact ⟨h1.1 (by decide), h2.2 (by decide)⟩

/-- The aggregate map after the zero-package load completes its (empty)
construction loops. -/
def c1NoPkgAll : List (TPackage × PackageInfo) :=
  match loadRun 1 wTriv conf0 with
  | some (_, st) => st.allPackages
  | none => [(unsafePkg, { Pkg := unsafePkg, Files := [], Importable := false,
                           err := some "x", infoId := 0 })]

/-- C1 counterexample: a load whose aggregate map has no recorded
construction error at all (it is empty) nevertheless returns a nil Program
and a non-nil error, because no packages were specified — so "zero recorded
errors implies a non-nil Program" fails as stated. -/
theorem c1_counterexample :
    c1NoPkgAll = []
    ∧ Load 1 wTriv conf0 = some (.error "no *.go source files nor packages were specified") :=
  ⟨by decide, by decide⟩

/-- C8 (amended): for an initial imported package (a key of
`conf.ImportPkgs`), a directory-discovery or parse failure aborts the whole
load: `Load` returns a nil Program and exactly that error. -/
theorem c8_initial_abort {fuel : Nat} {w : World} {conf : Config} {p : IPath}
    {aug : Bool} {e : String}
    (hconf : conf.ImportPkgs = [(p, aug)])
    (h : w.listFiles p (if aug then "gt" else "g") = .error e) :
    Load (fuel + 1) w conf = some (.error e) := by
  have h0 : mlookup (initSt conf).imported p = none := rfl
  have hfull : importPackage w (initConf conf) (fuel + 1) (initSt conf) p
      = some (finishImport p (none, some e) (sentSt (initSt conf) p)) := by
    rw [importPackage_eq, h0]
    show importAfterSentinel w (initConf conf) (importPackage w (initConf conf) fuel)
        (sentSt (initSt conf) p) p = _
    unfold importAfterSentinel importDispatch
    rw [initConf_ImportPkgs, hconf]
    have hm : mlookup [(p, aug)] p = some aug := by simp [mlookup]
    rw [hm]
    show (importFromSource w (initConf conf) (importPackage w (initConf conf) fuel)
        (sentSt (initSt conf) p) p (if aug then "gt" else "g")).map
          (fun r => finishImport p r.1 r.2) = _
    unfold importFromSource
    rw [h]
    rfl
  unfold Load loadFull loadRun
  rw [hconf]
  unfold loadImports
  rw [hfull]
  rfl

/-- Witness for C8 (amended): the initial package "A" fails discovery, and
the load returns exactly that error. -/
theorem c8_witness : Load 3 wPF confPF = some (.error "parse error: A") :=
  @c8_initial_abort 2 wPF confPF "A" false "parse error: A" rfl rfl

/-- The error recorded on package "A" after the load in which A's
transitive dependency "dep" failed to parse. -/
def c8DepRecorded : Option String :=
  match loadRun 10 wDep confDep with
  | some (_, st) =>
      match st.allPackages.find? (fun en => en.2.Pkg.path == "A") with
      | some en => en.2.err
      | none => none
  | none => none

/-- C8 counterexample: when the package whose source fails to parse is a
transitive dependency ("dep", reached from "A" with `SourceImports` set),
the load does not abort with that parse error; the failure is collected as
the recorded diagnostic of the importing package "A" and the load fails
with the aggregate enumeration instead. -/
theorem c8_counterexample :
    Load 10 wDep confDep = some (.error "couldn't load packages due to type errors: A")
    ∧ wDep.listFiles "dep" "g" = .error "parse failed: dep"
    ∧ c8DepRecorded = some "parse failed: dep"
    ∧ ("couldn't load packages due to type errors: A" : String) ≠ "parse failed: dep" :=
  ⟨by decide, rfl, by decide, by decide⟩

theorem initConf_eq (conf : Config) :
    initConf conf = { conf with Packages := some (initPackages conf),
                                Fset := some (confFset conf).1 } := by
  unfold initConf confFset
  cases conf.Fset <;> rfl

/-- C9 (amended): a load writes nothing into the configuration except the
lazy initialization the code documents: `ImportPkgs`, `CreatePkgs`,
`SourceImports`, `Build`, `TypeCheckFuncBodies` and the error-sink setting
are unchanged; an already-present `Fset` is kept; and
`TypeChecker.Packages` is non-nil afterwards (created when nil, and its
contents updated with the loaded packages). -/
theorem c9_config_mutation {fuel : Nat} {w : World} {conf : Config}
    {r : Except String Program} {conf' : Config}
    (h : loadFull fuel w conf = some (r, conf')) :
    conf'.ImportPkgs = conf.ImportPkgs
    ∧ conf'.CreatePkgs = conf.CreatePkgs
    ∧ conf'.SourceImports = conf.SourceImports
    ∧ conf'.Build = conf.Build
    ∧ conf'.TypeCheckFuncBodies = conf.TypeCheckFuncBodies
    ∧ conf'.tcError = conf.tcError
    ∧ (conf.Fset.isSome = true → conf'.Fset = conf.Fset)
    ∧ conf'.Packages.isSome = true := by
  have hc : ∃ st : LState, conf' = { initConf conf with Packages := some st.packages } := by
    unfold loadFull at h
    split at h
    · exact absurd h (by simp)
    · rename_i st
      split at h
      · simp only [Option.some.injEq, Prod.mk.injEq] at h
        exact ⟨_, h.2.symm⟩
      · simp only [Option.some.injEq, Prod.mk.injEq] at h
        exact ⟨_, h.2.symm⟩
  obtain ⟨st, rfl⟩ := hc
  refine ⟨by rw [initConf_eq], by rw [initConf_eq], by rw [initConf_eq], by rw [initConf_eq],
    by rw [initConf_eq], by rw [initConf_eq], ?_, by rw [initConf_eq]; rfl⟩
  intro hf
  rw [initConf_eq]
  cases hft : conf.Fset with
  | none => rw [hft] at hf; simp at hf
  | some f => simp [confFset, hft]

/-- The configuration as it stands after the zero-package load returns. -/
def c9after : Config := ((loadFull 1 wTriv conf0).getD (.error "", conf0)).2

/-- Witness for C9 (amended), at the zero configuration. -/
theorem c9_witness :
    c9after.ImportPkgs = conf0.ImportPkgs
    ∧ c9after.CreatePkgs = conf0.CreatePkgs
    ∧ c9after.SourceImports = conf0.SourceImports
    ∧ c9after.Build = conf0.Build
    ∧ c9after.TypeCheckFuncBodies = conf0.TypeCheckFuncBodies
    ∧ c9after.tcError = conf0.tcError
    ∧ c9after.Packages.isSome = true := by
  have h9 := c9_config_mutation (show loadFull 1 wTriv conf0
    = some (.error "no *.go source files nor packages were specified", c9after) from rfl)
  exact ⟨h9.1, h9.2.1, h9.2.2.1, h9.2.2.2.1, h9.2.2.2.2.1, h9.2.2.2.2.2.1,
    h9.2.2.2.2.2.2.2⟩

/-- C9 counterexample: on a configuration whose `Fset` and
`TypeChecker.Packages` are nil, `Load` returns with both fields initialized
to non-nil values — the configuration is not left unchanged. -/
theorem c9_counterexample :
    conf0.Packages = none
    ∧ conf0.Fset = none
    ∧ loadFull 1 wTriv conf0
        = some (.error "no *.go source files nor packages were specified", c9after)
    ∧ c9after.Packages = some []
    ∧ c9after.Fset = some 1 :=
  ⟨rfl, rfl, rfl, rfl, rfl⟩

/-- C7: `createPackage` is total — it always returns a package info, never
an error; the type checker's first diagnostic (`ds.head?`) is recorded in
the info's `err` field, and every diagnostic is forwarded to the configured
error callback, defaulting to the standard error stream when none is
supplied (`toStderr` is the negation of the configured-callback flag). -/
theorem c7_create_never_fails {w : World} {conf : Config} {resolve : Resolver} {st : LState}
    {path : IPath} {files : List File} {pkg : TPackage} {err : Option String}
    {ds : List String} {st2 : LState}
    (h : typeCheck w resolve st path files (ignoreBodiesFor conf path)
      = some ((pkg, err, ds), st2)) :
    createPackage w conf resolve st path files
      = some ({ Pkg := pkg, Files := files, Importable := false, err := err,
                infoId := st2.nextId },
          { st2 with nextId := st2.nextId + 1,
                     allPackages := mupsert st2.allPackages pkg
                       { Pkg := pkg, Files := files, Importable := false, err := err,
                         infoId := st2.nextId },
                     diags := st2.diags ++
                       ds.map (fun m => { toStderr := !conf.tcError, msg := m }) })
    ∧ err = ds.head? := by
  constructor
  · unfold createPackage
    rw [h]
  · unfold typeCheck at h
    simp only at h
    split at h
    · exact absurd h (by simp)
    · simp only [Option.some.injEq, Prod.mk.injEq] at h
      obtain ⟨⟨hp, he, hd⟩, hs⟩ := h
      rw [← he, hd]

/-- The result of the modelled type check of the package "m", whose body
has one intrinsic diagnostic. -/
def c7run : (TPackage × Option String × List String) × LState :=
  (typeCheck wErr (importPackage wErr conf0 5) (initSt conf0) "m"
      [{ pkgName := "m", imports := [] }] (ignoreBodiesFor conf0 "m")).getD
    ((unsafePkg, none, []), initSt conf0)

/-- Witness for C7, at a package with one type diagnostic and no configured
error callback (so the diagnostic goes to stderr). -/
theorem c7_witness :
    createPackage wErr conf0 (importPackage wErr conf0 5) (initSt conf0) "m"
        [{ pkgName := "m", imports := [] }]
      = some ({ Pkg := c7run.1.1, Files := [{ pkgName := "m", imports := [] }],
                Importable := false, err := c7run.1.2.1, infoId := c7run.2.nextId },
          { c7run.2 with nextId := c7run.2.nextId + 1,
                         allPackages := mupsert c7run.2.allPackages c7run.1.1
                           { Pkg := c7run.1.1, Files := [{ pkgName := "m", imports := [] }],
                             Importable := false, err := c7run.1.2.1, infoId := c7run.2.nextId },
                         diags := c7run.2.diags ++ c7run.1.2.2.map
                           (fun m => { toStderr := !conf0.tcError, msg := m }) })
    ∧ c7run.1.2.1 = c7run.1.2.2.head? :=
  c7_create_never_fails (show typeCheck wErr (importPackage wErr conf0 5) (initSt conf0) "m"
      [{ pkgName := "m", imports := [] }] (ignoreBodiesFor conf0 "m")
    = some ((c7run.1.1, c7run.1.2.1, c7run.1.2.2), c7run.2) by decide)

/-- C6: starting from a configuration with no initial imports, requesting
two different paths with tests in sequence augments only the first: the
first call returns nil, sets its path's flag to true and creates the
external test package; the second call returns nil, adds its path with
flag false, and creates nothing — so exactly one entry of `ImportPkgs` is
true afterwards. -/
theorem c6_at_most_one_augmented {w : World} {conf : Config} {p1 p2 : IPath} {xs : List File}
    (hconf : conf.ImportPkgs = [])
    (h1 : p1 ≠ "unsafe") (h2 : p2 ≠ "unsafe") (hne : p1 ≠ p2)
    (hx : w.listFiles p1 "x" = .ok xs) (hxs : xs ≠ []) :
    (ImportWithTests w conf p1).1 = none
    ∧ (ImportWithTests w conf p1).2.ImportPkgs = [(p1, true)]
    ∧ (ImportWithTests w conf p1).2.CreatePkgs = conf.CreatePkgs ++ [xs]
    ∧ (ImportWithTests w (ImportWithTests w conf p1).2 p2).1 = none
    ∧ (ImportWithTests w (ImportWithTests w conf p1).2 p2).2.ImportPkgs
        = [(p1, true), (p2, false)]
    ∧ (ImportWithTests w (ImportWithTests w conf p1).2 p2).2.CreatePkgs
        = (ImportWithTests w conf p1).2.CreatePkgs
    ∧ (((ImportWithTests w (ImportWithTests w conf p1).2 p2).2.ImportPkgs.filter
          (fun en => en.2)).map Prod.fst) = [p1] := by
  obtain ⟨fs, pk, te, tcb, si, bu, cp, ip⟩ := conf
  simp only at hconf
  subst hconf
  cases xs with
  | nil => exact absurd rfl hxs
  | cons a t =>
      cases fs with
      | none =>
          refine ⟨?_, ?_, ?_, ?_, ?_, ?_, ?_⟩ <;>
            simp [ImportWithTests, Import, confFset, h1, h2, hne, hx, mupsert]
      | some f =>
          refine ⟨?_, ?_, ?_, ?_, ?_, ?_, ?_⟩ <;>
            simp [ImportWithTests, Import, confFset, h1, h2, hne, hx, mupsert]

/-- Witness for C6: requesting "a" then "b" with tests on the zero
configuration augments only "a". -/
theorem c6_witness :
    (ImportWithTests wX conf0 "a").1 = none
    ∧ (ImportWithTests wX conf0 "a").2.ImportPkgs = [("a", true)]
    ∧ (ImportWithTests wX conf0 "a").2.CreatePkgs
        = conf0.CreatePkgs ++ [[{ pkgName := "a_test", imports := [] }]]
    ∧ (ImportWithTests wX (ImportWithTests wX conf0 "a").2 "b").1 = none
    ∧ (ImportWithTests wX (ImportWithTests wX conf0 "a").2 "b").2.ImportPkgs
        = [("a", true), ("b", false)]
    ∧ (ImportWithTests wX (ImportWithTests wX conf0 "a").2 "b").2.CreatePkgs
        = (ImportWithTests wX conf0 "a").2.CreatePkgs
    ∧ (((ImportWithTests wX (ImportWithTests wX conf0 "a").2 "b").2.ImportPkgs.filter
          (fun en => en.2)).map Prod.fst) = ["a"] :=
  @c6_at_most_one_augmented wX conf0 "a" "b" [{ pkgName := "a_test", imports := [] }]
    rfl (by decide) (by decide) (by decide) rfl (by decide)
